import Mathlib

/-!
Verification of the Recruiter-Scraper candidate extraction-and-filtering
pipeline: a shallow embedding, in Lean 4, of the pure decision logic of the
repository (text classifiers, education classification, title filtering,
the page-traversal crash handling, checkpoint writing/loading and the
pagination offset rewrite), together with theorems settling the spec's
claims about it.

Sources embedded (translated function by function):
  - profile.py               : `_parse_bachelors_year_from_text`, `BACHELORS_KW`
  - filters.py               : `TITLE_BLACKLIST`, `TITLE_REVIEW_FLAGS`,
                               `title_matches_whitelist`
  - profile_navigation.py    : `_classify_education`,
                               `_extract_education_from_panel` (decision part),
                               `_extract_from_open_panel` (title-filter step),
                               `process_page_via_navigation` (loop skeleton),
                               crash resume message
  - search.py                : `_save_profiles_incrementally`,
                               `load_incremental_profiles`,
                               `clear_incremental_file`, the `run_search`
                               checkpoint-file effect and start-offset rewrite
-/

namespace RecruiterScraper

/-! ## Python string primitives

Python `str.lower` and the substring operator `in`, modelled on the character
list of a string.  `Char.toLower` agrees with Python's `lower` on the ASCII
texts these classifiers handle. -/

/-- Python `str.lower()` (character-wise lowering). -/
def pyLower (s : String) : String := String.mk (s.data.map Char.toLower)

/-- Whether `needle` occurs as a contiguous sublist of `hay`. -/
def inChars (needle : List Char) : List Char → Bool
  | [] => needle.isEmpty
  | c :: rest => needle.isPrefixOf (c :: rest) || inChars needle rest

/-- Python `needle in hay` for strings. -/
def pyIn (needle hay : String) : Bool := inChars needle.data hay.data

/-! ## Regex machinery

The repository uses three fixed regexes:
  - `re.findall(r'\b(19|20)\d{2}\b', text)` in profile.py,
  - `BACHELOR_RE` and `MASTER_RE` in profile_navigation.py, each an
    alternation of literals with `\b` word boundaries on some sides,
    searched case-insensitively.
We model `\w` as ASCII alphanumeric or underscore and `\d` as ASCII digits,
which agrees with Python on the texts in play. -/

/-- Python regex `\w` (word character). -/
def wordChar (c : Char) : Bool := c.isAlphanum || c == '_'

/-- `\b` holds just before a word character when the previous character is
absent or not a word character. -/
def boundaryBefore (prev : Option Char) : Bool :=
  match prev with
  | none => true
  | some c => !wordChar c

/-- `\b` holds just after a word character when the rest of the input is
empty or starts with a non-word character. -/
def boundaryAfter : List Char → Bool
  | [] => true
  | c :: _ => !wordChar c

/-- One alternative of an alternation regex: an optional leading `\b`,
a literal (dots taken literally), and an optional trailing `\b`.  Every
literal in the two degree regexes starts and ends with a word character,
so the boundary tests above implement `\b` exactly for them. -/
structure ReAlt where
  pre : Bool
  lit : String
  post : Bool

/-- Whether alternative `a` matches at the current position, whose previous
character is `prev` and whose remaining input is `s`. -/
def altMatchAt (a : ReAlt) (prev : Option Char) (s : List Char) : Bool :=
  (!a.pre || boundaryBefore prev)
    && a.lit.data.isPrefixOf s
    && (!a.post || boundaryAfter (s.drop a.lit.data.length))

/-- `re.search` of one alternative: try every position left to right. -/
def altSearch (a : ReAlt) (prev : Option Char) : List Char → Bool
  | [] => false
  | c :: rest => altMatchAt a prev (c :: rest) || altSearch a (some c) rest

/-- `re.search` of an alternation regex under `re.IGNORECASE`: the subject
is lowered (the literals are already lowercase) and each alternative is
tried. -/
def reSearch (alts : List ReAlt) (s : String) : Bool :=
  alts.any (fun a => altSearch a none (pyLower s).data)

/-! ## profile.py — `_parse_bachelors_year_from_text` -/

/-- profile.py `BACHELORS_KW`. -/
def BACHELORS_KW : List String :=
  ["bachelor", "b.s.", "b.s", "b.a.", "b.a", "b.sc", "b.eng",
   "b.e.", "btech", "b.tech", "(bs)", "(ba)", "bs ", "ba "]

/-- profile.py `skip_patterns` (disqualifying substrings inside
`_parse_bachelors_year_from_text`). -/
def skip_patterns : List String :=
  ["master", "m.s.", "m.s", "m.a.", "m.a", "mba", "m.b.a",
   "ph.d", "phd", "doctor", "associate", "a.s.", "a.a.",
   "high school", "diploma", "certificate", "bootcamp",
   "hack reactor", "app academy", "flatiron", "general assembly",
   "graddip", "postgrad"]

/-- Decimal value of a digit list (most significant first), `none` when a
non-digit or an empty list is seen: Python `int` on the digit strings the
year scan produces. -/
def parseNatChars : List Char → Nat → Option Nat
  | [], acc => some acc
  | c :: rest, acc =>
    if c.isDigit then parseNatChars rest (acc * 10 + (c.toNat - 48))
    else none

/-- Python `int(s)` for the non-empty digit strings returned by the year
scan (`"19"` or `"20"`). -/
def pyInt (s : String) : Option Int :=
  if s.data.isEmpty then none
  else (parseNatChars s.data 0).map Int.ofNat

/-- Python `re.findall(r'\b(19|20)\d{2}\b', text)`.

Because the pattern contains exactly one capturing group, `re.findall`
returns the text of the GROUP for each match — the two-character string
`"19"` or `"20"` — not the full four-digit year.  `prev` is the character
before the current position (for the leading word boundary); after a match
scanning resumes past the match (non-overlapping), as in Python. -/
def yearScan : Option Char → List Char → List String
  | _, [] => []
  | prev, c1 :: rest =>
    match rest with
    | c2 :: c3 :: c4 :: rest' =>
      if boundaryBefore prev
          && ((c1 == '1' && c2 == '9') || (c1 == '2' && c2 == '0'))
          && c3.isDigit && c4.isDigit
          && boundaryAfter rest' then
        String.mk [c1, c2] :: yearScan (some c4) rest'
      else
        yearScan (some c1) (c2 :: c3 :: c4 :: rest')
    | _ => []

/-- profile.py `_parse_bachelors_year_from_text`, line for line:
empty text → `None`; any `skip_patterns` substring of the lowered text →
`None`; no `BACHELORS_KW` substring → `None`; otherwise
`int(years[-1])` of the `re.findall` result if non-empty, else `None`.
(`pyInt` never fails on the `"19"`/`"20"` group strings, mirroring
Python's `int`.) -/
def _parse_bachelors_year_from_text (text : String) : Option Int :=
  if text == "" then none
  else
    let text_lower := pyLower text
    if skip_patterns.any (fun skip => pyIn skip text_lower) then none
    else if !(BACHELORS_KW.any (fun kw => pyIn kw text_lower)) then none
    else
      match (yearScan none text.data).getLast? with
      | some s => pyInt s
      | none => none

/-! ## filters.py — title whitelist/blacklist matcher -/

/-- filters.py `TITLE_BLACKLIST` (a frozenset; listed here in source
order — every blacklist hit returns the same value, so iteration order is
immaterial). -/
def TITLE_BLACKLIST : List String :=
  ["director", "vice president", "vp", "advocate", "advocacy",
   "merchandising", "operations", "professional services"]

/-- filters.py `TITLE_REVIEW_FLAGS`. -/
def TITLE_REVIEW_FLAGS : List String := ["head of"]

/-- A single-quote character as a string (used in the review-note text). -/
def squote : String := String.mk [Char.ofNat 39]

/-- Python truthiness of the `whitelist` argument: `None` and the empty
set are falsy. -/
def whitelistTruthy (wl : Option (List String)) : Bool :=
  match wl with
  | none => false
  | some l => !l.isEmpty

/-- filters.py `title_matches_whitelist`: hard blacklist first, then the
whitelist requirement (only when a whitelist is present and non-empty),
then soft review flags.  `whitelist : Option _` models the Python `set |
None` argument. -/
def title_matches_whitelist (title : String) (whitelist : Option (List String)) :
    Bool × String :=
  let title_lower := pyLower title
  if TITLE_BLACKLIST.any (fun phrase => pyIn phrase title_lower) then
    (false, "")
  else if whitelistTruthy whitelist
      && !((whitelist.getD []).any (fun phrase => pyIn phrase title_lower)) then
    (false, "")
  else
    match TITLE_REVIEW_FLAGS.find? (fun phrase => pyIn phrase title_lower) with
    | some phrase => (true, "title: " ++ squote ++ phrase ++ squote ++ " — review")
    | none => (true, "")

/-! ## profile_navigation.py — education classification -/

/-- profile_navigation.py `BACHELOR_RE`
(`\bbachelor|\bbs\b|\bba\b|b\.s\b|b\.a\b|b\.sc\b|b\.eng\b|b\.e\b|btech\b|b\.tech\b`,
case-insensitive). -/
def BACHELOR_RE : List ReAlt :=
  [⟨true, "bachelor", false⟩, ⟨true, "bs", true⟩, ⟨true, "ba", true⟩,
   ⟨false, "b.s", true⟩, ⟨false, "b.a", true⟩, ⟨false, "b.sc", true⟩,
   ⟨false, "b.eng", true⟩, ⟨false, "b.e", true⟩, ⟨false, "btech", true⟩,
   ⟨false, "b.tech", true⟩]

/-- profile_navigation.py `MASTER_RE`
(`\bmaster|\bmba\b|m\.b\.a\b|m\.s\b|m\.a\b|m\.eng\b|m\.sc\b|mtech\b|m\.tech\b`,
case-insensitive). -/
def MASTER_RE : List ReAlt :=
  [⟨true, "master", false⟩, ⟨true, "mba", true⟩, ⟨false, "m.b.a", true⟩,
   ⟨false, "m.s", true⟩, ⟨false, "m.a", true⟩, ⟨false, "m.eng", true⟩,
   ⟨false, "m.sc", true⟩, ⟨false, "mtech", true⟩, ⟨false, "m.tech", true⟩]

/-- `BACHELOR_RE.search(degree)` as a Bool. -/
def isBachelorDegree (degree : String) : Bool := reSearch BACHELOR_RE degree

/-- `MASTER_RE.search(degree)` as a Bool. -/
def isMasterDegree (degree : String) : Bool := reSearch MASTER_RE degree

/-- One education row as parsed from the panel: degree text and the year
taken from the last `<time>` element (profile_navigation.py, the JS inside
`_extract_education_from_panel`). -/
structure EducationEntry where
  degree : String
  year : Option Int
deriving DecidableEq

/-- profile_navigation.py `_classify_education`: the decision over the
entry list (`bachelors` filtered by `BACHELOR_RE`, `has_master` by
`MASTER_RE`), branching on 0 / more-than-1 / exactly-1 bachelors exactly
as the Python does. -/
def _classify_education (entries : List EducationEntry) (has_education : Bool) :
    Bool × String × Option Int :=
  if !has_education then (true, "no education", none)
  else
    match entries.filter (fun e => isBachelorDegree e.degree) with
    | [] =>
      if entries.any (fun e => isMasterDegree e.degree) then
        (true, "No bachelor's - review", none)
      else (false, "", none)
    | [b] =>
      match b.year with
      | none => (true, "no edu year - review", none)
      | some grad_year =>
        if 2010 ≤ grad_year ∧ grad_year ≤ 2024 then (true, "", some grad_year)
        else (false, "", some grad_year)
    | _ :: _ :: _ => (true, "multi bachelor - review", none)

/-- profile_navigation.py `_extract_education_from_panel`, decision part.
`entries` are the education rows present in the panel and `showMore`
whether the "See more education" (truncation) button exists.  The JS
returns early with `hasEducation = false` when there are no rows (so the
truncation button is never consulted then); the Python then returns
`(False, "", None)` on `hasShowMore` and otherwise classifies. -/
def _extract_education_from_panel (entries : List EducationEntry) (showMore : Bool) :
    Bool × String × Option Int :=
  if entries.isEmpty then _classify_education [] false
  else if showMore then (false, "", none)
  else _classify_education entries true

/-! ## profile_navigation.py — the title-filter step of `_extract_from_open_panel`

Lines 353–366: the title matcher is invoked only when `title_whitelist is
not None and current_title` is non-empty; a failing match aborts the
candidate (`None`), otherwise the review note is kept.  When the whitelist
is `None`, or when it is present but no title was extracted, the candidate
passes with an empty `title_review`.  The result is `none` for "candidate
rejected" and `some review` for "passes with this title review note". -/

def title_filter_step (whitelist : Option (List String)) (current_title : String) :
    Option String :=
  match whitelist with
  | some wl =>
    if current_title ≠ "" then
      let r := title_matches_whitelist current_title (some wl)
      if r.1 then some r.2 else none
    else some ""
  | none => some ""

/-! ## profile_navigation.py — page traversal loop and crash reporting -/

/-- What the live page answers during one iteration of the traversal loop
for one candidate: whether `_is_chrome_crashed` reports a crash before
extraction, what `_extract_from_open_panel` returns, and whether
`_click_next_candidate` advances. -/
structure CandidateStep (α : Type) where
  crashed : Bool
  extracted : Option α
  hasNext : Bool
deriving DecidableEq

/-- The resume message of `process_page_via_navigation`:
`f"page {page_num}, candidate {candidate_num}" if page_num else
f"candidate {candidate_num}"` — the page number is included only when
`page_num` is truthy (non-zero). -/
def resume_msg (page_num candidate_num : Nat) : String :=
  if page_num ≠ 0 then
    "page " ++ toString page_num ++ ", candidate " ++ toString candidate_num
  else
    "candidate " ++ toString candidate_num

/-- The `while True` loop of `process_page_via_navigation`:
`candidate_num` starts at 1 (incremented at the loop top); a detected
crash breaks immediately, returning the profiles collected so far together
with the logged resume message; otherwise the extraction result (when any)
is appended and the loop continues while Next succeeds.  The step list is
the trace of page responses; an exhausted trace ends the page normally. -/
def process_loop {α : Type} (page_num : Nat) :
    List (CandidateStep α) → Nat → List α → List α × Option String
  | [], _, acc => (acc, none)
  | s :: rest, n, acc =>
    if s.crashed then (acc, some (resume_msg page_num n))
    else
      let acc' := match s.extracted with
        | some r => acc ++ [r]
        | none => acc
      if s.hasNext then process_loop page_num rest (n + 1) acc'
      else (acc', none)

/-- profile_navigation.py `process_page_via_navigation` (loop skeleton):
returns the extracted records of the page and, when a crash was detected,
the resume message that is logged. -/
def process_page_via_navigation {α : Type} (page_num : Nat)
    (steps : List (CandidateStep α)) : List α × Option String :=
  process_loop page_num steps 1 []

/-- search.py line 130: `run_search` calls
`process_page_via_navigation(page, title_whitelist)` WITHOUT the
`page_num` argument, so it defaults to `0`. -/
def run_search_page_call {α : Type} (steps : List (CandidateStep α)) :
    List α × Option String :=
  process_page_via_navigation 0 steps

/-! ## search.py — incremental checkpoint file

The checkpoint file is modelled as its list of lines.  `json.dumps` never
emits a raw newline, so each record written is exactly one line; the
serializer and parser are abstracted as `dumps`/`loads`. -/

/-- search.py `_save_profiles_incrementally`: no-op on an empty batch,
otherwise append one JSONL line per profile. -/
def _save_profiles_incrementally {α : Type} (dumps : α → String)
    (file : List String) (profiles : List α) : List String :=
  if profiles.isEmpty then file else file ++ profiles.map dumps

/-- search.py `load_incremental_profiles`: parse every line, silently
skipping lines that fail to decode; no deduplication of any kind. -/
def load_incremental_profiles {α : Type} (loads : String → Option α)
    (file : List String) : List α :=
  file.filterMap loads

/-- search.py `clear_incremental_file`: delete the file (the missing file
reads back as no lines). -/
def clear_incremental_file (_file : List String) : List String := []

/-- The checkpoint-file effect of search.py `run_search`:
`clear_incremental_file()` runs unconditionally before the page loop
(line 108), then pages `start_page .. max_pages` each append their
extracted profiles (via `_save_profiles_incrementally` inside the
traversal).  `pageProfiles p` is the batch that page `p` contributes; a
run that stops early contributes empty batches from there on. -/
def run_search_checkpoint {α : Type} (dumps : α → String)
    (start_page max_pages : Nat) (file0 : List String)
    (pageProfiles : Nat → List α) : List String :=
  let f1 := clear_incremental_file file0
  (List.range' start_page (max_pages + 1 - start_page)).foldl
    (fun f p => _save_profiles_incrementally dumps f (pageProfiles p)) f1

/-! ## search.py — pagination offset rewrite

`run_search` lines 86–92: `query_params['start'] = [str((start_page-1)*25)]`
on the `parse_qs` dict of the pasted URL, then re-serialization.  The
query dict is modelled as an ordered association list with Python-dict
assignment semantics: replace in place when the key exists, append
otherwise. -/

/-- Python `d[k] = v` on an insertion-ordered dict rendered as an
association list. -/
def dict_set (q : List (String × List String)) (k : String) (v : List String) :
    List (String × List String) :=
  if q.any (fun kv => kv.1 == k) then
    q.map (fun kv => if kv.1 == k then (k, v) else kv)
  else q ++ [(k, v)]

/-- Python `d.get(k)`: the value of the first binding of `k`. -/
def dict_get (q : List (String × List String)) (k : String) :
    Option (List String) :=
  match q with
  | [] => none
  | kv :: rest => if kv.1 == k then some kv.2 else dict_get rest k

/-- search.py lines 86–89: the offset rewrite applied to the pasted URL's
query before the first navigation. -/
def run_search_set_start (q : List (String × List String)) (start_page : Int) :
    List (String × List String) :=
  dict_set q "start" [toString ((start_page - 1) * 25)]

/-! ## Claim theorems -/

/-- C1 (code bug): the claim says `_parse_bachelors_year_from_text` returns
the LAST year token of a bachelor's text as the graduation year (the
function's own docstring promises `"Drexel University, Bachelor of Science
(BS) · 2012 – 2017" → 2017`).  It does not: `re.findall(r'\b(19|20)\d{2}\b',
text)` returns the captured GROUP of each match (`"19"`/`"20"`), so
`int(years[-1])` is `20` here, not `2017`. -/
theorem parse_bachelors_year_findall_group_bug :
    _parse_bachelors_year_from_text
      "Drexel University, Bachelor of Science (BS) 2012 - 2017" = some 20 := by
  decide

/-- C9: any disqualifying `skip_patterns` substring of the lowered text
makes `_parse_bachelors_year_from_text` return `none`, regardless of
bachelor's keywords or year tokens also present (the skip check runs
first). -/
theorem parse_bachelors_skip_patterns_return_none (text : String)
    (h : skip_patterns.any (fun skip => pyIn skip (pyLower text)) = true) :
    _parse_bachelors_year_from_text text = none := by
  unfold _parse_bachelors_year_from_text
  by_cases he : text == ""
  · simp [he]
  · simp [he, h]

theorem parse_bachelors_skip_patterns_return_none_witness :
    skip_patterns.any
        (fun skip => pyIn skip (pyLower "Master of Science, Bachelor of Arts 2015")) = true
    ∧ _parse_bachelors_year_from_text "Master of Science, Bachelor of Arts 2015" = none :=
  ⟨by decide, parse_bachelors_skip_patterns_return_none _ (by decide)⟩

/-- C4: a blacklist phrase occurring (case-insensitively) in the title
makes `title_matches_whitelist` return `(false, "")` for every whitelist —
the blacklist check precedes and overrides the whitelist check. -/
theorem title_blacklist_always_rejects (title : String)
    (whitelist : Option (List String))
    (h : TITLE_BLACKLIST.any (fun phrase => pyIn phrase (pyLower title)) = true) :
    title_matches_whitelist title whitelist = (false, "") := by
  unfold title_matches_whitelist
  simp [h]

theorem title_blacklist_always_rejects_witness :
    TITLE_BLACKLIST.any
        (fun phrase => pyIn phrase (pyLower "VP of Engineering, Software Engineer")) = true
    ∧ pyIn "software engineer" (pyLower "VP of Engineering, Software Engineer") = true
    ∧ title_matches_whitelist "VP of Engineering, Software Engineer"
        (some ["software engineer"]) = (false, "") :=
  ⟨by decide, by decide, title_blacklist_always_rejects _ _ (by decide)⟩

/-- C10: with an absent (`none`) or empty whitelist, every title free of
blacklist phrases passes, and the review note is non-empty exactly when
the soft-flag phrase "head of" occurs in the lowered title. -/
theorem empty_or_absent_whitelist_passes (title : String)
    (whitelist : Option (List String))
    (hb : TITLE_BLACKLIST.any (fun phrase => pyIn phrase (pyLower title)) = false)
    (hw : whitelist = none ∨ whitelist = some []) :
    (title_matches_whitelist title whitelist).1 = true
    ∧ ((title_matches_whitelist title whitelist).2 ≠ ""
        ↔ pyIn "head of" (pyLower title) = true) := by
  have hwt : whitelistTruthy whitelist = false := by
    rcases hw with h | h <;> simp [h, whitelistTruthy]
  cases hio : pyIn "head of" (pyLower title) with
  | true =>
    unfold title_matches_whitelist
    simp [hb, hwt, TITLE_REVIEW_FLAGS, List.find?, hio]
    decide
  | false =>
    unfold title_matches_whitelist
    simp [hb, hwt, TITLE_REVIEW_FLAGS, List.find?, hio]

theorem empty_or_absent_whitelist_passes_witness :
    (title_matches_whitelist "Head of Product" none).1 = true
    ∧ ((title_matches_whitelist "Head of Product" none).2 ≠ ""
        ↔ pyIn "head of" (pyLower "Head of Product") = true) :=
  empty_or_absent_whitelist_passes "Head of Product" none (by decide) (Or.inl rfl)

/-- C7: the pipeline's title-filter step never rejects when the whitelist
is `None` (no whitelist file) — titles with blacklist phrases included —
and never rejects when a whitelist is active but no title was extracted;
both cases pass with an empty review note.  The matcher itself is invoked
only in the remaining case (whitelist present and title non-empty). -/
theorem title_filter_step_only_with_whitelist_and_title
    (wl : List String) (title : String) :
    title_filter_step none title = some ""
    ∧ title_filter_step (some wl) "" = some "" := by
  constructor
  · rfl
  · simp [title_filter_step]

/-- Helper for C8: replacing the value of a present key makes the lookup
return the new value. -/
lemma dict_get_after_replace (q : List (String × List String)) (k : String)
    (v : List String) (h : q.any (fun kv => kv.1 == k) = true) :
    dict_get (q.map (fun kv => if kv.1 == k then (k, v) else kv)) k
      = some v := by
  induction q with
  | nil => simp at h
  | cons kv q ih =>
    rw [List.any_cons, Bool.or_eq_true] at h
    by_cases hk : (kv.1 == k) = true
    · rw [List.map_cons, if_pos hk]
      simp only [dict_get]
      rw [if_pos (beq_self_eq_true k)]
    · have h' : q.any (fun kv => kv.1 == k) = true := h.resolve_left hk
      rw [List.map_cons, if_neg hk]
      simp only [dict_get]
      rw [if_neg hk]
      exact ih h'

/-- Helper for C8: appending a fresh binding for an absent key makes the
lookup return it. -/
lemma dict_get_after_append (q : List (String × List String)) (k : String)
    (v : List String) (h : q.any (fun kv => kv.1 == k) = false) :
    dict_get (q ++ [(k, v)]) k = some v := by
  induction q with
  | nil =>
    rw [List.nil_append]
    simp only [dict_get]
    rw [if_pos (beq_self_eq_true k)]
  | cons kv q ih =>
    rw [List.any_cons] at h
    have hk : (kv.1 == k) = false := by
      cases hkv : (kv.1 == k)
      · rfl
      · rw [hkv, Bool.true_or] at h
        exact absurd h (by simp)
    have h' : q.any (fun kv => kv.1 == k) = false := by
      rw [hk, Bool.false_or] at h
      exact h
    rw [List.cons_append]
    simp only [dict_get]
    rw [if_neg (by simp [hk])]
    exact ih h'

/-- C8: the pagination engine sets the query's `start` parameter to
`(start_page − 1) * 25` before the first navigation, for every pasted
query — overwriting a pre-existing `start` value when there is one and
adding the parameter otherwise. -/
theorem run_search_overwrites_start_offset
    (q : List (String × List String)) (start_page : Int) :
    dict_get (run_search_set_start q start_page) "start"
      = some [toString ((start_page - 1) * 25)] := by
  unfold run_search_set_start dict_set
  by_cases h : q.any (fun kv => kv.1 == "start") = true
  · rw [if_pos h]
    exact dict_get_after_replace q "start" _ h
  · rw [if_neg h]
    refine dict_get_after_append q "start" _ ?_
    cases hq : q.any (fun kv => kv.1 == "start") with
    | true => exact absurd hq h
    | false => rfl

/-- C6: `run_search` deletes the incremental checkpoint file before any
page is processed, unconditionally in `start_page` — so the final file
content is independent of whatever a previous interrupted run had
checkpointed, and equals exactly what the current run's pages append. -/
theorem run_search_clears_checkpoint_unconditionally {α : Type}
    (dumps : α → String) (start_page max_pages : Nat) (file0 : List String)
    (pageProfiles : Nat → List α) :
    run_search_checkpoint dumps start_page max_pages file0 pageProfiles
      = run_search_checkpoint dumps start_page max_pages [] pageProfiles
    ∧ run_search_checkpoint dumps start_page max_pages file0 pageProfiles
      = (List.range' start_page (max_pages + 1 - start_page)).foldl
          (fun f p => _save_profiles_incrementally dumps f (pageProfiles p)) [] := by
  exact ⟨rfl, rfl⟩

/-- Helper for C5: parsing the lines written for a batch recovers the
batch, given that parsing inverts serialization on those records. -/
lemma filterMap_loads_map_dumps {α : Type} (dumps : α → String)
    (loads : String → Option α) :
    ∀ ps : List α, (∀ r ∈ ps, loads (dumps r) = some r) →
      (ps.map dumps).filterMap loads = ps := by
  intro ps
  induction ps with
  | nil => intro _; rfl
  | cons p ps ih =>
    intro h
    rw [List.map_cons, List.filterMap_cons, h p (List.mem_cons_self ..)]
    rw [ih (fun r hr => h r (List.mem_cons_of_mem _ hr))]

/-- Helper for C5: one incremental save appends exactly its batch to what
the loader returns. -/
lemma load_after_save {α : Type} (dumps : α → String)
    (loads : String → Option α) (file : List String) (ps : List α)
    (h : ∀ r ∈ ps, loads (dumps r) = some r) :
    load_incremental_profiles loads (_save_profiles_incrementally dumps file ps)
      = load_incremental_profiles loads file ++ ps := by
  unfold _save_profiles_incrementally load_incremental_profiles
  cases ps with
  | nil => simp
  | cons p t =>
    rw [if_neg (by simp)]
    rw [List.filterMap_append, filterMap_loads_map_dumps dumps loads _ h]

/-- C5: after any sequence of incremental appends starting from the empty
checkpoint file, the loader returns exactly the appended records, in
append order, with duplicates preserved — the loader performs no
deduplication (its `filterMap` keeps every parsed line).  The hypothesis
says only that the serializer round-trips on the records written, which
`json.dumps`/`json.loads` do. -/
theorem checkpoint_load_returns_appends {α : Type} (dumps : α → String)
    (loads : String → Option α) (batches : List (List α))
    (h : ∀ r ∈ batches.flatten, loads (dumps r) = some r) :
    load_incremental_profiles loads
        (batches.foldl (fun f ps => _save_profiles_incrementally dumps f ps) [])
      = batches.flatten := by
  suffices H : ∀ (bs : List (List α)) (file : List String),
      (∀ r ∈ bs.flatten, loads (dumps r) = some r) →
      load_incremental_profiles loads
          (bs.foldl (fun f ps => _save_profiles_incrementally dumps f ps) file)
        = load_incremental_profiles loads file ++ bs.flatten by
    have := H batches [] h
    rwa [show load_incremental_profiles loads [] = [] from rfl, List.nil_append] at this
  intro bs
  induction bs with
  | nil =>
    intro file _
    rw [List.foldl_nil, List.flatten_nil, List.append_nil]
  | cons ps rest ih =>
    intro file hh
    have hmem : ∀ r ∈ ps, r ∈ (ps :: rest).flatten := by
      intro r hr
      rw [List.flatten_cons]
      exact List.mem_append.mpr (Or.inl hr)
    have hmem' : ∀ r ∈ rest.flatten, r ∈ (ps :: rest).flatten := by
      intro r hr
      rw [List.flatten_cons]
      exact List.mem_append.mpr (Or.inr hr)
    rw [List.foldl_cons]
    rw [ih _ (fun r hr => hh r (hmem' r hr))]
    rw [load_after_save dumps loads file ps (fun r hr => hh r (hmem r hr))]
    rw [List.flatten_cons, List.append_assoc]

/-- Witness serializer for C5: a record `n` is written as `n` marks. -/
def witnessDumps (n : Nat) : String := String.mk (List.replicate n 'x')

/-- Witness parser for C5: read back the mark count. -/
def witnessLoads (s : String) : Option Nat := some s.data.length

theorem checkpoint_load_returns_appends_witness :
    load_incremental_profiles witnessLoads
        (([[1, 2], [2]] : List (List Nat)).foldl
          (fun f ps => _save_profiles_incrementally witnessDumps f ps) [])
      = [1, 2, 2] :=
  (checkpoint_load_returns_appends witnessDumps witnessLoads [[1, 2], [2]]
    (by decide)).trans (by decide)

/-- C3 counterexample: with candidate 1 extracting a record and the
crashed-tab condition detected at candidate 2 of page 1, the traversal —
as `run_search` actually invokes it, without a page number — returns the
one record but reports the resume point "candidate 2", NOT
"page 1, candidate 2" as the claim states. -/
theorem crash_resume_report_counterexample :
    (run_search_page_call
        ([⟨false, some 1, true⟩, ⟨true, none, true⟩] : List (CandidateStep Nat))).1 = [1]
    ∧ (run_search_page_call
        ([⟨false, some 1, true⟩, ⟨true, none, true⟩] : List (CandidateStep Nat))).2
      = some "candidate 2"
    ∧ (run_search_page_call
        ([⟨false, some 1, true⟩, ⟨true, none, true⟩] : List (CandidateStep Nat))).2
      ≠ some "page 1, candidate 2" := by
  decide

/-- Helper for C3: unrolling the traversal loop over a prefix of
non-crashed, advancing candidates up to the first crashed one. -/
lemma process_loop_crash {α : Type} (page_num : Nat) (c : CandidateStep α)
    (rest : List (CandidateStep α)) (hc : c.crashed = true) :
    ∀ (good : List (CandidateStep α)) (n : Nat) (acc : List α),
      (∀ s ∈ good, s.crashed = false ∧ s.hasNext = true) →
      process_loop page_num (good ++ c :: rest) n acc
        = (acc ++ good.filterMap (fun s => s.extracted),
           some (resume_msg page_num (good.length + n))) := by
  intro good
  induction good with
  | nil =>
    intro n acc _
    simp [process_loop, hc]
  | cons s good ih =>
    intro n acc hg
    obtain ⟨h1, h2⟩ := hg s (List.mem_cons_self ..)
    rw [List.cons_append]
    simp only [process_loop, h1, h2]
    rw [if_neg (by simp), if_pos trivial]
    rw [ih (n + 1) _ (fun t ht => hg t (List.mem_cons_of_mem _ ht))]
    have hmsg : resume_msg page_num (good.length + (n + 1))
        = resume_msg page_num ((s :: good).length + n) := by
      rw [List.length_cons]
      congr 1
      omega
    rw [hmsg]
    cases hx : s.extracted with
    | none => simp [hx, List.filterMap_cons]
    | some r => simp [hx, List.filterMap_cons, List.append_assoc]

/-- C3 (amended): when the crashed-tab condition is detected before
extracting candidate k of a page, the traversal as invoked by
`run_search` stops immediately and returns exactly the records
accumulated for candidates 1..k−1; the reported resume point is
"candidate k" — without the page number, because `run_search` does not
pass `page_num`, which defaults to 0. -/
theorem crash_returns_prefix_and_candidate_index {α : Type}
    (good : List (CandidateStep α)) (c : CandidateStep α)
    (rest : List (CandidateStep α))
    (hg : ∀ s ∈ good, s.crashed = false ∧ s.hasNext = true)
    (hc : c.crashed = true) :
    run_search_page_call (good ++ c :: rest)
      = (good.filterMap (fun s => s.extracted),
         some ("candidate " ++ toString (good.length + 1))) := by
  unfold run_search_page_call process_page_via_navigation
  rw [process_loop_crash 0 c rest hc good 1 [] hg]
  rw [List.nil_append]
  rfl

theorem crash_returns_prefix_and_candidate_index_witness :
    run_search_page_call
        ([⟨false, some "r1", true⟩] ++ (⟨true, none, false⟩ : CandidateStep String) :: [])
      = (["r1"], some "candidate 2") :=
  (crash_returns_prefix_and_candidate_index
    [⟨false, some "r1", true⟩] ⟨true, none, false⟩ [] (by decide) rfl).trans (by decide)

/-- C2: the education classification implements the seven-row decision
table exactly.  Rows, in the claim's order (the in-range/out-of-range
halves of the single-bachelor row stated separately): no education section
→ (true, "no education", none); exactly one bachelor with a year in
[2010, 2024] → (true, "", that year); one bachelor with a year outside →
(false, "", that year); one bachelor without a year →
(true, "no edu year - review", none); more than one bachelor →
(true, "multi bachelor - review", none); no bachelor but a master →
(true, "No bachelor's - review", none); neither → (false, "", none);
truncation ("Show more") indicator → (false, "", none). -/
theorem education_decision_table (entries : List EducationEntry)
    (e : EducationEntry) (y : Int) (showMore : Bool) :
    (_extract_education_from_panel [] showMore = (true, "no education", none))
    ∧ (entries ≠ [] →
        entries.filter (fun x => isBachelorDegree x.degree) = [e] →
        e.year = some y → 2010 ≤ y → y ≤ 2024 →
        _extract_education_from_panel entries false = (true, "", some y))
    ∧ (entries ≠ [] →
        entries.filter (fun x => isBachelorDegree x.degree) = [e] →
        e.year = some y → ¬(2010 ≤ y ∧ y ≤ 2024) →
        _extract_education_from_panel entries false = (false, "", some y))
    ∧ (entries ≠ [] →
        entries.filter (fun x => isBachelorDegree x.degree) = [e] →
        e.year = none →
        _extract_education_from_panel entries false
          = (true, "no edu year - review", none))
    ∧ (entries ≠ [] →
        1 < (entries.filter (fun x => isBachelorDegree x.degree)).length →
        _extract_education_from_panel entries false
          = (true, "multi bachelor - review", none))
    ∧ (entries ≠ [] →
        entries.filter (fun x => isBachelorDegree x.degree) = [] →
        entries.any (fun x => isMasterDegree x.degree) = true →
        _extract_education_from_panel entries false
          = (true, "No bachelor's - review", none))
    ∧ (entries ≠ [] →
        entries.filter (fun x => isBachelorDegree x.degree) = [] →
        entries.any (fun x => isMasterDegree x.degree) = false →
        _extract_education_from_panel entries false = (false, "", none))
    ∧ (entries ≠ [] →
        _extract_education_from_panel entries true = (false, "", none)) := by
  refine ⟨?_, ?_, ?_, ?_, ?_, ?_, ?_, ?_⟩
  · simp [_extract_education_from_panel, _classify_education]
  · intro hne hf hy h1 h2
    have hne' : entries.isEmpty = false := by simpa using hne
    simp only [_extract_education_from_panel, hne', Bool.false_eq_true, if_false,
      _classify_education, Bool.not_true]
    rw [hf]
    simp only [hy]
    rw [if_pos ⟨h1, h2⟩]
  · intro hne hf hy h12
    have hne' : entries.isEmpty = false := by simpa using hne
    simp only [_extract_education_from_panel, hne', Bool.false_eq_true, if_false,
      _classify_education, Bool.not_true]
    rw [hf]
    simp only [hy]
    rw [if_neg h12]
  · intro hne hf hy
    have hne' : entries.isEmpty = false := by simpa using hne
    simp only [_extract_education_from_panel, hne', Bool.false_eq_true, if_false,
      _classify_education, Bool.not_true]
    rw [hf]
    simp only [hy]
  · intro hne hlen
    have hne' : entries.isEmpty = false := by simpa using hne
    rcases hf : entries.filter (fun x => isBachelorDegree x.degree) with
      _ | ⟨b, _ | ⟨b2, t⟩⟩
    · rw [hf] at hlen
      simp at hlen
    · rw [hf] at hlen
      simp at hlen
    · simp only [_extract_education_from_panel, hne', Bool.false_eq_true, if_false,
        _classify_education, Bool.not_true]
      rw [hf]
  · intro hne hf hm
    have hne' : entries.isEmpty = false := by simpa using hne
    simp only [_extract_education_from_panel, hne', Bool.false_eq_true, if_false,
      _classify_education, Bool.not_true]
    rw [hf, hm]
    simp
  · intro hne hf hm
    have hne' : entries.isEmpty = false := by simpa using hne
    simp only [_extract_education_from_panel, hne', Bool.false_eq_true, if_false,
      _classify_education, Bool.not_true]
    rw [hf, hm]
    simp
  · intro hne
    have hne' : entries.isEmpty = false := by simpa using hne
    simp [_extract_education_from_panel, hne']

theorem education_decision_table_witness :
    _extract_education_from_panel [] false = (true, "no education", none)
    ∧ _extract_education_from_panel
        [(⟨"Bachelor of Science", some 2015⟩ : EducationEntry)] false
      = (true, "", some 2015)
    ∧ _extract_education_from_panel
        [(⟨"Master of Science", some 2015⟩ : EducationEntry)] false
      = (true, "No bachelor's - review", none) := by
  refine ⟨(education_decision_table [] ⟨"", none⟩ 0 false).1, ?_, ?_⟩
  · exact (education_decision_table [⟨"Bachelor of Science", some 2015⟩]
      ⟨"Bachelor of Science", some 2015⟩ 2015 false).2.1
      (by decide) (by decide) rfl (by decide) (by decide)
  · exact (education_decision_table [⟨"Master of Science", some 2015⟩]
      ⟨"", none⟩ 0 false).2.2.2.2.2.1 (by decide) (by decide) (by decide)

end RecruiterScraper
